import Mathlib

/-!
Verification of the cybernetic-chatbot-client resilience core.

Shallow embedding of three components, translated from the TypeScript
source:
  * `CyberneticLocalRAG` (src/CyberneticLocalRAG.ts): the local TF-IDF
    lexical search engine;
  * `CyberneticCache` (src/CyberneticCache.ts): the document cache with
    an indexeddb-style backend and a localStorage-style key-value backend;
  * `CyberneticClient` (src/CyberneticClient.ts): the resilient
    orchestrator (`ask`, `apiWithRetry`, `fallbackAsk`, `normalizeError`,
    `checkSystemStatus`, `isCacheValid`, `clearCache`).

Modelling conventions:
  * JavaScript numbers are modelled as `ℝ` where the code computes
    similarity scores, and as `Nat`/`Int` for counters and timestamps.
  * Strings are ASCII-modelled: `toLowerCase`, the regex classes `\w`
    and `\s`, and `trim` are interpreted on ASCII characters.
  * Asynchronous calls are modelled as oracles in an `Env` record; a
    JavaScript exception is an `Except.error` carrying the error message.
  * User-supplied observer callbacks (`onStatusChange`, `onError`) are
    modelled as non-throwing, which the claims presuppose; calls to
    collaborators are recorded in an event trace.
-/

namespace Cybernetic

/-! ## Character and string primitives (ASCII model of the JS operations) -/

/-- Regex class `\w` of `/[^\w\s]/g`: ASCII alphanumeric or underscore. -/
def jsWordChar (c : Char) : Bool := c.isAlphanum || c = '_'

/-- Regex class `\s`: whitespace. -/
def jsSpaceChar (c : Char) : Bool := c.isWhitespace

/-- `text.toLowerCase()` (ASCII model). -/
def lowerStr (s : String) : String := ⟨s.data.map Char.toLower⟩

/-- `s.substring(0, n)`. -/
def takeStr (s : String) (n : Nat) : String := ⟨s.data.take n⟩

/-- `s.trim()` (ASCII model). -/
def trimStr (s : String) : String :=
  ⟨((s.data.dropWhile jsSpaceChar).reverse.dropWhile jsSpaceChar).reverse⟩

/-- `hay.includes(needle)`. -/
def jsIncludes (hay needle : String) : Bool :=
  (List.range (hay.data.length + 1)).any fun i => needle.data.isPrefixOf (hay.data.drop i)

/-- Worker for `String.split` on a regex character class: `cur` holds the
(reversed) characters of the piece being accumulated, `inSep` records
whether the previous character belonged to a separator run.  A run that
reaches the end of the string contributes the trailing empty piece, as
JS `split` does. -/
def jsSplitAux (p : Char → Bool) : List Char → List Char → Bool → List String
  | [], cur, _ => [⟨cur.reverse⟩]
  | c :: rest, cur, inSep =>
    if p c then
      if inSep then jsSplitAux p rest cur true
      else ⟨cur.reverse⟩ :: jsSplitAux p rest [] true
    else jsSplitAux p rest (c :: cur) false

/-- `s.split(re)` where `re` matches nonempty runs of characters
satisfying `p` (as in `split(/\s+/)` and `split(/[.!?]+/)`): pieces
between maximal separator runs, with empty pieces at the boundaries. -/
def jsSplit (p : Char → Bool) (s : String) : List String :=
  jsSplitAux p s.data [] false

/-- `parseInt` on a run of decimal digits. -/
def digitsToNat (ds : List Char) : Nat :=
  ds.foldl (fun n c => n * 10 + (c.toNat - 48)) 0

/-- First match of `/retry after (\d+)/i` in `msg`, as a number of
seconds (`CyberneticClient.normalizeError`). -/
def parseRetryAfter (msg : String) : Option Nat :=
  let cs := (lowerStr msg).data
  let pat := "retry after ".data
  (List.range cs.length).findSome? fun i =>
    let rest := cs.drop i
    if pat.isPrefixOf rest then
      let ds := (rest.drop pat.length).takeWhile Char.isDigit
      if ds.isEmpty then none else some (digitsToNat ds)
    else none

/-! ## JS `Map<string, number>` as an insertion-ordered association list -/

abbrev TMap := List (String × ℝ)

/-- `m.get(k)` (as an `Option`). -/
def mapGet (m : TMap) (k : String) : Option ℝ :=
  (m.find? fun p => p.1 == k).map (·.2)

/-- `m.set(k, v)`: update in place if present, else append. -/
def mapSet (m : TMap) (k : String) (v : ℝ) : TMap :=
  if m.any (fun p => p.1 == k) then m.map fun p => if p.1 == k then (k, v) else p
  else m ++ [(k, v)]

/-- JS `x || d` on a possibly-absent number: `undefined`, `null` and `0`
are falsy. -/
noncomputable def jsOr (x : Option ℝ) (d : ℝ) : ℝ :=
  match x with
  | none => d
  | some v => if v = 0 then d else v

/-- JS `Array.from(new Set(l))`: first occurrences, in order. -/
def uniqueList (l : List String) : List String :=
  l.foldl (fun acc t => if t ∈ acc then acc else acc ++ [t]) []

/-! ## CyberneticLocalRAG (src/CyberneticLocalRAG.ts) -/

structure CachedDocument where
  id : String
  title : String
  content : String
  updatedAt : String
deriving DecidableEq

structure IndexedDocument where
  id : String
  title : String
  content : String
  tokens : List String
  tfidf : TMap

structure RAGSource where
  title : String
  snippet : String
  score : ℝ

structure LocalRAGResult where
  answer : String
  sources : List RAGSource
  topScore : ℝ

/-- The private state of a `CyberneticLocalRAG` instance. -/
structure RAGState where
  documents : List IndexedDocument
  idf : TMap
  indexed : Bool

namespace CyberneticLocalRAG

/-- The fixed stop-word set of `isStopWord`. -/
def stopWords : List String :=
  ["the", "a", "an", "and", "or", "but", "in", "on", "at", "to", "for",
   "of", "with", "by", "from", "up", "about", "into", "through", "during",
   "is", "are", "was", "were", "be", "been", "being", "have", "has", "had",
   "do", "does", "did", "will", "would", "could", "should", "may", "might",
   "this", "that", "these", "those", "it", "its", "they", "them", "their",
   "what", "which", "who", "whom", "when", "where", "why", "how",
   "all", "each", "every", "both", "few", "more", "most", "other", "some",
   "such", "no", "not", "only", "same", "so", "than", "too", "very"]

def isStopWord (word : String) : Bool := stopWords.contains word

/-- `tokenize`: lower-case, replace `[^\w\s]` by a space, split on
whitespace, keep tokens of length `> 2` that are not stop words. -/
def tokenize (text : String) : List String :=
  let lowered := (lowerStr text).data
  let replaced := lowered.map fun c => if !jsWordChar c && !jsSpaceChar c then ' ' else c
  (jsSplitAux jsSpaceChar replaced [] false).filter fun t =>
    decide (2 < t.data.length) && !isStopWord t

/-- The raw-count pass of `computeTermFrequency`. -/
def countTokens (tokens : List String) : TMap :=
  tokens.foldl (fun freq t => mapSet freq t ((mapGet freq t).getD 0 + 1)) []

/-- `computeTermFrequency`: raw counts, max-normalized.  With no tokens,
`Math.max()` is `-Infinity` and the `maxFreq > 0` guard fails, leaving
the (empty) map unchanged. -/
noncomputable def computeTermFrequency (tokens : List String) : TMap :=
  let freq := countTokens tokens
  match (freq.map (·.2)).max? with
  | none => freq
  | some maxFreq =>
    if 0 < maxFreq then freq.map (fun p => (p.1, p.2 / maxFreq)) else freq

/-- The TF-IDF vector built from a term-frequency map: weight
`tf * (idf.get(term) || 1)`.  This single loop is shared by `index`
(per document) and `ask` (for the query), which run the same code. -/
noncomputable def tfidfVector (idf : TMap) (tokens : List String) : TMap :=
  (computeTermFrequency tokens).map fun p => (p.1, p.2 * jsOr (mapGet idf p.1) 1)

/-- `cosineSimilarity`: the dot product ranges over `vec1`'s entries with
`vec2.get(term) || 0`; zero if either norm is zero. -/
noncomputable def dotProduct (v1 v2 : TMap) : ℝ :=
  (v1.map fun p => p.2 * ((mapGet v2 p.1).getD 0)).sum

noncomputable def normSq (v : TMap) : ℝ := (v.map fun p => p.2 * p.2).sum

noncomputable def cosineSimilarity (v1 v2 : TMap) : ℝ :=
  if normSq v1 = 0 ∨ normSq v2 = 0 then 0
  else dotProduct v1 v2 / (Real.sqrt (normSq v1) * Real.sqrt (normSq v2))

/-- `index(documents)`: tokenize, document frequencies over unique
tokens, smoothed IDF `ln((N+1)/(df+1)) + 1`, per-document TF-IDF.
Prior state is discarded wholesale, so this is a function of the
document list alone. -/
noncomputable def index (documents : List CachedDocument) : RAGState :=
  let tokenized := documents.map fun d => (d, tokenize d.content)
  let docFreq : TMap := tokenized.foldl
    (fun m dt => (uniqueList dt.2).foldl
      (fun m t => mapSet m t ((mapGet m t).getD 0 + 1)) m) []
  let N : ℝ := documents.length
  let idf : TMap := docFreq.map fun p => (p.1, Real.log ((N + 1) / (p.2 + 1)) + 1)
  { documents := tokenized.map fun dt =>
      { id := dt.1.id, title := dt.1.title, content := dt.1.content,
        tokens := dt.2, tfidf := tfidfVector idf dt.2 },
    idf := idf,
    indexed := true }

def initialState : RAGState := { documents := [], idf := [], indexed := false }

/-- `reset()`. -/
def reset (_ : RAGState) : RAGState := initialState

/-- `isIndexed()`. -/
def isIndexed (st : RAGState) : Bool := st.indexed && decide (0 < st.documents.length)

/-- Sentence scoring of `extractRelevantSnippet`: count of query tokens
contained in the sentence's token set. -/
def sentenceOverlap (queryTokens : List String) (sentence : String) : Nat :=
  let sentenceTokens := tokenize sentence
  queryTokens.countP fun qt => sentenceTokens.contains qt

/-- `extractRelevantSnippet`: split into sentences, keep nonblank ones,
rank by query-token overlap, join the top 3 overlapping sentences, else
fall back to the first 300 characters. -/
def extractRelevantSnippet (content : String) (queryTokens : List String) : String :=
  let sentences := (jsSplit (fun c => c = '.' || c = '!' || c = '?') content).filter
    fun s => decide (0 < (trimStr s).data.length)
  let scored := sentences.map fun s => (trimStr s, sentenceOverlap queryTokens s)
  let sorted := scored.mergeSort fun a b => decide (b.2 ≤ a.2)
  let top := (sorted.take 3).filter fun s => decide (0 < s.2)
  if top.isEmpty then takeStr content 300 ++ "..."
  else String.intercalate ". " (top.map (·.1)) ++ "."

/-- The stable descending comparator `(a, b) => b.score - a.score`. -/
noncomputable def scoreDesc (a b : IndexedDocument × ℝ) : Bool := decide (b.2 ≤ a.2)

def noInfoAnswer : String := "I don't have any information available offline."

def noMatchAnswer : String :=
  "I couldn't find relevant information for your question in my offline data."

/-- The scored document list of `ask`, before sorting. -/
noncomputable def scoreDocs (st : RAGState) (queryTfidf : TMap) : List (IndexedDocument × ℝ) :=
  st.documents.map fun d => (d, cosineSimilarity queryTfidf d.tfidf)

/-- `ask(query)`. -/
noncomputable def ask (st : RAGState) (query : String) : LocalRAGResult :=
  if st.indexed = false ∨ st.documents.length = 0 then
    { answer := noInfoAnswer, sources := [], topScore := 0 }
  else
    let queryTokens := tokenize query
    let queryTfidf := tfidfVector st.idf queryTokens
    let sorted := (scoreDocs st queryTfidf).mergeSort scoreDesc
    let topResults := (sorted.take 3).filter fun r => decide (0.1 < r.2)
    match topResults with
    | [] =>
      { answer := noMatchAnswer, sources := [],
        topScore := jsOr (sorted.head?.map (·.2)) 0 }
    | top0 :: _ =>
      { answer := extractRelevantSnippet top0.1.content queryTokens,
        sources := topResults.map fun r =>
          { title := r.1.title, snippet := takeStr r.1.content 200 ++ "...", score := r.2 },
        topScore := top0.2 }

end CyberneticLocalRAG

/-! ## CyberneticCache (src/CyberneticCache.ts)

The localStorage backend stores two keys, `cybernetic-cache-docs` and
`cybernetic-cache-meta`, modelled as two slots of a key-value state with
a byte capacity; `setItem` raises a quota error when the write would
exceed the capacity (JSON round-tripping is abstracted: a slot holds the
structured value, and its serialized size is estimated from the string
fields).  The IndexedDB backend is a keyed document store plus a
metadata store; `getDB` throws when no database handle exists. -/

inductive StorageKind
  | indexeddb
  | localstorage
deriving DecidableEq

/-- Serialized-size estimate of one document in the localStorage value. -/
def docSize (d : CachedDocument) : Nat :=
  d.id.data.length + d.title.data.length + d.content.data.length +
    d.updatedAt.data.length + 40

def docsValSize (l : List CachedDocument) : Nat := (l.map docSize).sum + 2

def metaValSize : Nat := 60

structure LSState where
  docsItem : Option (List CachedDocument)
  metaItem : Option (Nat × Option Int)
  capacity : Nat
deriving DecidableEq

def lsUsed (ls : LSState) : Nat :=
  (ls.docsItem.map docsValSize).getD 0 + (ls.metaItem.map fun _ => metaValSize).getD 0

/-- `localStorage.setItem('cybernetic-cache-docs', ...)`. -/
def lsSetDocs (ls : LSState) (l : List CachedDocument) : Except String LSState :=
  let ls' := { ls with docsItem := some l }
  if lsUsed ls' ≤ ls.capacity then .ok ls' else .error "QuotaExceededError"

/-- `localStorage.setItem('cybernetic-cache-meta', ...)`. -/
def lsSetMeta (ls : LSState) (m : Nat × Option Int) : Except String LSState :=
  let ls' := { ls with metaItem := some m }
  if lsUsed ls' ≤ ls.capacity then .ok ls' else .error "QuotaExceededError"

/-- `localStorage.removeItem('cybernetic-cache-docs')`. -/
def lsRemoveDocs (ls : LSState) : LSState := { ls with docsItem := none }

structure DBState where
  docs : List CachedDocument
  metaCount : Option Nat
  metaSync : Option Int
deriving DecidableEq

/-- `objectStore('documents').put(doc)`: upsert keyed by `id`. -/
def dbPut (db : DBState) (d : CachedDocument) : DBState :=
  { db with docs :=
      if db.docs.any (fun x => x.id == d.id) then
        db.docs.map fun x => if x.id == d.id then d else x
      else db.docs ++ [d] }

/-- The state of a `CyberneticCache` instance: the configured backend,
the configured `maxAge`, the backing stores, and the in-memory
`documentCount` / `lastSyncAt` fields (timestamps as epoch ms). -/
structure CacheState where
  storage : StorageKind
  maxAge : Int
  ls : LSState
  db : Option DBState
  documentCount : Nat
  lastSyncAt : Option Int
deriving DecidableEq

structure CacheStatus where
  documentCount : Nat
  lastSyncAt : Option Int
  cacheSize : Nat
  isStale : Bool
deriving DecidableEq

namespace CyberneticCache

/-- `getStatus()`: an absent `lastSyncAt` is treated as epoch 0. -/
def getStatus (now : Int) (c : CacheState) : CacheStatus :=
  let lastSync : Int := c.lastSyncAt.getD 0
  { documentCount := c.documentCount,
    lastSyncAt := c.lastSyncAt,
    cacheSize := c.documentCount * 5000,
    isStale := decide (c.maxAge < now - lastSync) }

/-- `getLastSync()`. -/
def getLastSync (c : CacheState) : Option Int := c.lastSyncAt

/-- The `catch` branch of `storeLocalStorage`: remove the docs item,
keep only the first 50 documents, and write once more — a second quota
failure at this point is NOT caught and propagates to the caller.  The
metadata item and `lastSyncAt` are not rewritten on this path. -/
def storeLocalStorageCatch (docs : List CachedDocument) (c : CacheState) :
    (Except String Unit) × CacheState :=
  let ls1 := lsRemoveDocs c.ls
  let limited := docs.take 50
  match lsSetDocs ls1 limited with
  | .ok ls2 => (.ok (), { c with ls := ls2, documentCount := limited.length })
  | .error e => (.error e, { c with ls := ls1 })

/-- `storeLocalStorage`: write the documents, update the in-memory
count and sync time, write the metadata; any quota failure in the `try`
falls into the single retry of `storeLocalStorageCatch`. -/
def storeLocalStorage (now : Int) (docs : List CachedDocument) (c : CacheState) :
    (Except String Unit) × CacheState :=
  match lsSetDocs c.ls docs with
  | .error _ => storeLocalStorageCatch docs c
  | .ok ls1 =>
    let c1 := { c with ls := ls1, documentCount := docs.length, lastSyncAt := some now }
    match lsSetMeta c1.ls (docs.length, some now) with
    | .ok ls2 => (.ok (), { c1 with ls := ls2 })
    | .error _ => storeLocalStorageCatch docs c1

/-- `store(documents)`. -/
def store (now : Int) (docs : List CachedDocument) (c : CacheState) :
    (Except String Unit) × CacheState :=
  if c.storage = .localstorage then storeLocalStorage now docs c
  else
    match c.db with
    | none => (.error "Database not available", c)
    | some db =>
      let db1 := docs.foldl dbPut db
      let cnt := db1.docs.length
      let db2 := { db1 with metaCount := some cnt, metaSync := some now }
      (.ok (), { c with db := some db2, documentCount := cnt, lastSyncAt := some now })

/-- `retrieveLocalStorage`: parse failures yield `[]`. -/
def retrieveLocalStorage (c : CacheState) : List CachedDocument :=
  c.ls.docsItem.getD []

/-- `retrieve()`: read-only. -/
def retrieve (c : CacheState) : Except String (List CachedDocument) :=
  if c.storage = .localstorage then .ok (retrieveLocalStorage c)
  else
    match c.db with
    | none => .error "Database not available"
    | some db => .ok db.docs

/-- `clear()`. -/
def clear (c : CacheState) : (Except String Unit) × CacheState :=
  if c.storage = .localstorage then
    let ls' := { c.ls with docsItem := none, metaItem := none }
    (.ok (), { c with ls := ls', documentCount := 0, lastSyncAt := none })
  else
    match c.db with
    | none => (.error "Database not available", c)
    | some _ =>
      let db' : DBState := { docs := [], metaCount := none, metaSync := none }
      (.ok (), { c with db := some db', documentCount := 0, lastSyncAt := none })

end CyberneticCache

/-! ## CyberneticClient (src/CyberneticClient.ts) -/

inductive Confidence
  | high
  | medium
  | low
  | none
deriving DecidableEq

structure Source where
  title : String
  snippet : String
  relevance : ℝ

structure CyberneticResponse where
  reply : String
  confidence : Confidence
  sources : List Source
  offline : Bool
  sessionId : Option String := Option.none
  degradedReason : Option String := Option.none
  retryAfter : Option Nat := Option.none

inductive ErrorCode
  | NETWORK_ERROR
  | AUTH_ERROR
  | RATE_LIMIT
  | SERVER_ERROR
deriving DecidableEq

structure CyberneticError where
  code : ErrorCode
  message : String
  retryAfter : Option Nat := Option.none
deriving DecidableEq

structure SystemSettings where
  cacheRetentionHours : Nat
  maintenanceMode : Bool
  maintenanceMessage : Option String := Option.none
  forceOfflineClients : Bool
deriving DecidableEq

/-- The optional `systemSettings` fields of a `/status` response. -/
structure PartialSettings where
  cacheRetentionHours : Option Nat := Option.none
  maintenanceMode : Option Bool := Option.none
  maintenanceMessage : Option String := Option.none
  forceOfflineClients : Option Bool := Option.none

structure StatusOk where
  systemSettings : Option PartialSettings := Option.none

structure ChatOk where
  reply : String
  sessionId : Option String := Option.none
  sources : Option (List Source) := Option.none

inductive ConnectionStatus
  | connecting
  | online
  | offline
  | error
deriving DecidableEq

/-- Observable calls to collaborators, recorded in order. -/
inductive Event
  | chatAttempt (n : Nat)
  | statusCall
  | sleep (ms : Nat)
  | fallback
  | cacheRetrieve
deriving DecidableEq

structure RetryConfig where
  maxRetries : Nat
  initialDelay : Nat
  exponentialBackoff : Bool
deriving DecidableEq

structure ResolvedConfig where
  fallbackEnabled : Bool
  retry : RetryConfig
deriving DecidableEq

structure AskOptions where
  sessionId : Option String := Option.none
  skipFallback : Bool := false
deriving DecidableEq

/-- The mutable fields of a `CyberneticClient` instance, plus the trace. -/
structure ClientState where
  config : ResolvedConfig
  status : ConnectionStatus
  lastError : Option CyberneticError
  systemSettings : Option SystemSettings
  settingsLastChecked : Int
  cache : CacheState
  rag : RAGState
  trace : List Event

/-- Oracles for the transport collaborator and the clock during one
operation: `chatResult msg n` is the outcome of the `n`-th `chat`
attempt, `statusResult` the outcome of `getStatus`, `docsResult` the
outcome of `getGeneralDocs`. -/
structure Env where
  now : Int
  statusResult : Except String StatusOk
  chatResult : String → Nat → Except String ChatOk
  docsResult : Except String (List CachedDocument)

/-- JS `x || d` on a possibly-absent string: `undefined` and `''` are
falsy. -/
def jsOrStr (x : Option String) (d : String) : String :=
  match x with
  | none => d
  | some s => if s = "" then d else s

namespace CyberneticClient

def emit (e : Event) (st : ClientState) : ClientState := { st with trace := st.trace ++ [e] }

/-- `setStatus`: the observer fires only on a change (modelled as
non-throwing). -/
def setStatus (s : ConnectionStatus) (st : ClientState) : ClientState :=
  if st.status = s then st else { st with status := s }

/-- `normalizeError`, classifying a raw failure by its message. -/
def normalizeError (msg : String) : CyberneticError :=
  if jsIncludes msg "401" || jsIncludes msg "Unauthorized" then
    { code := .AUTH_ERROR, message := "Invalid or expired API key" }
  else if jsIncludes msg "429" || jsIncludes msg "Rate limit" then
    { code := .RATE_LIMIT, message := "Rate limit exceeded",
      retryAfter := some ((parseRetryAfter msg).getD 60) }
  else if jsIncludes msg "5" || jsIncludes msg "Server" then
    { code := .SERVER_ERROR, message := "Server error occurred" }
  else
    { code := .NETWORK_ERROR, message := if msg = "" then "Network error" else msg }

def defaultSettings : SystemSettings :=
  { cacheRetentionHours := 168, maintenanceMode := false, forceOfflineClients := false }

/-- The fetch-and-extract branch of `checkSystemStatus`; on failure the
cached value (or the hardcoded safe default) is returned unchanged. -/
def checkSystemStatusFetch (env : Env) (st : ClientState) : SystemSettings × ClientState :=
  let st := emit .statusCall st
  match env.statusResult with
  | .ok status =>
    let p := status.systemSettings
    let s : SystemSettings :=
      { cacheRetentionHours := (p.bind (·.cacheRetentionHours)).getD 168,
        maintenanceMode := (p.bind (·.maintenanceMode)).getD false,
        maintenanceMessage := p.bind (·.maintenanceMessage),
        forceOfflineClients := (p.bind (·.forceOfflineClients)).getD false }
    (s, { st with systemSettings := some s, settingsLastChecked := env.now })
  | .error _ => (st.systemSettings.getD defaultSettings, st)

/-- `checkSystemStatus`: the cached settings are reused when fetched
within the last 5 minutes. -/
def checkSystemStatus (env : Env) (st : ClientState) : SystemSettings × ClientState :=
  match st.systemSettings with
  | some s =>
    if env.now - st.settingsLastChecked < 300000 then (s, st)
    else checkSystemStatusFetch env st
  | none => checkSystemStatusFetch env st

/-- `isMaintenanceMode()`. -/
def isMaintenanceMode (st : ClientState) : Bool :=
  (st.systemSettings.map (·.maintenanceMode)).getD false

/-- `isCacheValid()`: a last-sync time exists and is within the
server-configured retention window (`|| 168` treats a zero retention as
absent). -/
def isCacheValid (env : Env) (st : ClientState) : Bool :=
  match st.cache.lastSyncAt with
  | none => false
  | some t =>
    let retentionHours : Nat :=
      match st.systemSettings with
      | some s => if s.cacheRetentionHours = 0 then 168 else s.cacheRetentionHours
      | none => 168
    decide (env.now - t < (retentionHours : Int) * 3600000)

/-- The inter-attempt delay of `apiWithRetry`:
`exponentialBackoff ? initialDelay * 2^attempt : initialDelay`. -/
def retryDelay (retry : RetryConfig) (attempt : Nat) : Nat :=
  if retry.exponentialBackoff then retry.initialDelay * 2 ^ attempt
  else retry.initialDelay

/-- The retry loop of `apiWithRetry`: `fuel` is the number of loop
iterations left (`maxRetries + 1` at entry), `attempt` the current
attempt index. -/
def apiWithRetryGo (env : Env) (retry : RetryConfig) (msg : String) :
    Nat → Nat → Option String → ClientState → (Except String ChatOk) × ClientState
  | 0, _, lastErr, st => (.error (lastErr.getD ""), st)
  | fuel + 1, attempt, _, st =>
    let st := emit (.chatAttempt attempt) st
    match env.chatResult msg attempt with
    | .ok r => (.ok r, st)
    | .error e =>
      let oe := normalizeError e
      if oe.code = .AUTH_ERROR ∨ oe.code = .RATE_LIMIT then (.error e, st)
      else
        let st :=
          if attempt < retry.maxRetries then emit (.sleep (retryDelay retry attempt)) st
          else st
        apiWithRetryGo env retry msg fuel (attempt + 1) (some e) st

/-- `apiWithRetry`: up to `maxRetries + 1` sequential attempts; auth and
rate-limit errors are rethrown without retry. -/
def apiWithRetry (env : Env) (st : ClientState) (msg : String) :
    (Except String ChatOk) × ClientState :=
  apiWithRetryGo env st.config.retry msg (st.config.retry.maxRetries + 1) 0 Option.none st

def noCacheReply : String :=
  "I'm currently offline and don't have any cached information. Please check your connection and try again."

def troubleOfflineReply : String :=
  "I'm having trouble processing your request offline. Please try again when you're back online."

def maintenanceFallbackReply : String :=
  "The service is currently under maintenance. Please try again later."

def rateLimitReply : String :=
  "I'm receiving too many requests right now. Please try again in a moment."

def unableToConnectReply : String :=
  "Unable to connect to the chatbot service. Please try again later."

/-- `fallbackAsk`: local RAG processing over the cached documents. -/
noncomputable def fallbackAsk (env : Env) (st : ClientState) (message : String) :
    CyberneticResponse × ClientState :=
  let st := emit .fallback (setStatus .offline st)
  let cacheStatus := CyberneticCache.getStatus env.now st.cache
  if cacheStatus.documentCount = 0 then
    ({ reply := noCacheReply, confidence := .none, sources := [], offline := true,
       degradedReason := some "No cached documents available" }, st)
  else
    let st := emit .cacheRetrieve st
    match CyberneticCache.retrieve st.cache with
    | .error _ =>
      ({ reply := troubleOfflineReply, confidence := .none, sources := [], offline := true,
         degradedReason := some "Local RAG processing failed" }, st)
    | .ok docs =>
      let st := if CyberneticLocalRAG.isIndexed st.rag then st
        else { st with rag := CyberneticLocalRAG.index docs }
      let result := CyberneticLocalRAG.ask st.rag message
      let confidence : Confidence := .medium
      let confidence := if result.topScore < 0.3 then Confidence.low
        else if 0.7 < result.topScore then Confidence.medium else confidence
      ({ reply := result.answer,
         confidence := confidence,
         sources := result.sources.map fun s =>
           { title := s.title, snippet := s.snippet, relevance := s.score },
         offline := true,
         degradedReason := some (if cacheStatus.isStale then "Using stale cached data"
           else "Processed locally without server") }, st)

def createErrorResponse (message : String) (confidence : Confidence)
    (retryAfter : Option Nat := Option.none) : CyberneticResponse :=
  { reply := message, confidence := confidence, sources := [], offline := false,
    retryAfter := retryAfter }

/-- `ask(message, options)`. -/
noncomputable def ask (env : Env) (st : ClientState) (message : String)
    (options : AskOptions) : (Except String CyberneticResponse) × ClientState :=
  if message = "" then (.ok (createErrorResponse "Message is required" .none), st)
  else
    let p := checkSystemStatus env st
    let settings := p.1
    let st := p.2
    if settings.maintenanceMode || settings.forceOfflineClients then
      if isCacheValid env st = false then
        (.ok { reply := jsOrStr settings.maintenanceMessage maintenanceFallbackReply,
               confidence := .none, sources := [], offline := true,
               degradedReason := some "Maintenance mode active, no valid cache available" }, st)
      else
        let q := fallbackAsk env st message
        (.ok q.1, q.2)
    else
      match apiWithRetry env st message with
      | (.ok response, st) =>
        let st := setStatus .online st
        (.ok { reply := response.reply, confidence := .high,
               sources := response.sources.getD [], offline := false,
               sessionId := response.sessionId }, st)
      | (.error e, st) =>
        let omegaError := normalizeError e
        let st := { st with lastError := some omegaError }
        if omegaError.code = .RATE_LIMIT then
          (.ok { reply := rateLimitReply, confidence := .none, sources := [],
                 offline := false, retryAfter := omegaError.retryAfter }, st)
        else if st.config.fallbackEnabled && !options.skipFallback then
          let q := fallbackAsk env st message
          (.ok q.1, q.2)
        else
          (.ok (createErrorResponse unableToConnectReply .none omegaError.retryAfter), st)

/-- `clearCache()`: a failure of `cache.clear()` propagates and skips
the RAG reset. -/
def clearCache (st : ClientState) : (Except String Unit) × ClientState :=
  match CyberneticCache.clear st.cache with
  | (.ok _, c) => (.ok (), { st with cache := c, rag := CyberneticLocalRAG.reset st.rag })
  | (.error e, c) => (.error e, { st with cache := c })

/-- `syncCache()`: failures are logged and swallowed; an empty document
diff does not touch the cache. -/
noncomputable def syncCache (env : Env) (st : ClientState) : ClientState :=
  match env.docsResult with
  | .error _ => st
  | .ok docs =>
    if 0 < docs.length then
      match CyberneticCache.store env.now docs st.cache with
      | (.ok _, c) =>
        setStatus .online { st with cache := c, rag := CyberneticLocalRAG.index docs }
      | (.error _, c) => { st with cache := c }
    else setStatus .online st

end CyberneticClient

/-! ## Claim-level reference definitions

These definitions follow the wording of spec sentences (for refinement
comparisons against the source-derived definitions above), plus concrete
inputs used by counterexamples and witnesses. -/

/-- The tokenizer described by claim C7's wording: lower-case, replace
every non-alphanumeric character (which includes the underscore) with
whitespace, split on whitespace, drop tokens of length at most 2 and
stop words. -/
def tokenizeClaim (text : String) : List String :=
  let lowered := (lowerStr text).data
  let replaced := lowered.map fun c => if !c.isAlphanum then ' ' else c
  ((jsSplitAux jsSpaceChar replaced [] false).filter fun t => t ≠ "").filter fun t =>
    decide (2 < t.data.length) && !CyberneticLocalRAG.isStopWord t

/-- The amended tokenizer description: every character that is neither
alphanumeric nor an underscore is replaced with whitespace (the regex
class `\w` keeps underscores inside tokens). -/
def tokenizeAmended (text : String) : List String :=
  let lowered := (lowerStr text).data
  let replaced := lowered.map fun c => if !(c.isAlphanum || c = '_') then ' ' else c
  ((jsSplitAux jsSpaceChar replaced [] false).filter fun t => t ≠ "").filter fun t =>
    decide (2 < t.data.length) && !CyberneticLocalRAG.isStopWord t

/-- Concrete documents for the C8 quota scenario: 51 small documents
whose `updatedAt` stamps increase strictly with the index, so the last
one is the unique most recent. -/
def c8doc (i : Nat) : CachedDocument :=
  { id := toString i, title := "t", content := "c", updatedAt := toString (100 + i) }

def c8docs : List CachedDocument := (List.range 51).map c8doc

/-- A localStorage-backed cache whose capacity admits exactly the first
50 of `c8docs` but not all 51, so the first write hits the quota. -/
def c8cache : CacheState :=
  { storage := .localstorage, maxAge := 86400000,
    ls := { docsItem := none, metaItem := none,
            capacity := docsValSize ((List.range 50).map c8doc) },
    db := none, documentCount := 0, lastSyncAt := none }

/-- An empty localStorage-backed cache used by witnesses. -/
def witnessCache : CacheState :=
  { storage := .localstorage, maxAge := 86400000,
    ls := { docsItem := none, metaItem := none, capacity := 5000000 },
    db := none, documentCount := 0, lastSyncAt := none }

def witnessConfig : ResolvedConfig :=
  { fallbackEnabled := true,
    retry := { maxRetries := 2, initialDelay := 1000, exponentialBackoff := true } }

/-- A freshly-constructed client state used by witnesses. -/
def witnessState : ClientState :=
  { config := witnessConfig, status := .connecting, lastError := none,
    systemSettings := none, settingsLastChecked := 0,
    cache := witnessCache, rag := CyberneticLocalRAG.initialState, trace := [] }

def chatOkReply : ChatOk := { reply := "hello from live" }

/-- Transport that fails twice retryably, then succeeds. -/
def envRetryTwice : Env :=
  { now := 0, statusResult := .ok {}, docsResult := .ok [],
    chatResult := fun _ n =>
      if n = 0 then .error "fetch failed"
      else if n = 1 then .error "fetch failed again"
      else .ok chatOkReply }

/-- Transport whose chat call is rejected with HTTP 401. -/
def envAuthFail : Env :=
  { now := 0, statusResult := .ok {}, docsResult := .ok [],
    chatResult := fun _ _ => .error "HTTP 401: Unauthorized" }

/-- Transport whose chat call is rejected with HTTP 429 and a
retry-after hint. -/
def envRateLimited : Env :=
  { now := 0, statusResult := .ok {}, docsResult := .ok [],
    chatResult := fun _ _ => .error "HTTP 429: Too Many Requests. Retry after 30 seconds" }

/-- The partial system settings reported during maintenance. -/
def maintenancePartial : PartialSettings :=
  { maintenanceMode := some true,
    maintenanceMessage := some "Scheduled maintenance until 3pm" }

/-- Transport whose status check reports maintenance mode with a
server-provided message. -/
def envMaintenance : Env :=
  { now := 0,
    statusResult := .ok { systemSettings := some maintenancePartial },
    docsResult := .ok [],
    chatResult := fun _ _ => .ok chatOkReply }

/-- A document whose content tokenizes to nothing (both characters-long
tokens are dropped), used by the C2 witness and the C6 counterexample. -/
def docAA : CachedDocument := { id := "a", title := "A", content := "aa", updatedAt := "1" }

def lsC2 : LSState :=
  { docsItem := some [docAA], metaItem := some (1, some 0), capacity := 5000000 }

def cacheC2 : CacheState :=
  { witnessCache with documentCount := 1, lastSyncAt := some 0, ls := lsC2 }

/-- A client state with one cached document and an unindexed engine. -/
def stC2 : ClientState := { witnessState with cache := cacheC2 }

def witnessDoc : CachedDocument :=
  { id := "d1", title := "Return Policy",
    content := "Our return policy allows returns within 30 days of purchase.",
    updatedAt := "2024" }

def lsC9 : LSState :=
  { docsItem := some [witnessDoc], metaItem := some (1, some 0), capacity := 5000000 }

def cacheC9 : CacheState :=
  { witnessCache with documentCount := 1, lastSyncAt := some 0, ls := lsC9 }

/-- A client state with one cached document, used by the C9 witness. -/
def stC9 : ClientState := { witnessState with cache := cacheC9 }

/-- The system settings obtained from a default status response. -/
def settingsW : SystemSettings :=
  { cacheRetentionHours := 168, maintenanceMode := false, forceOfflineClients := false }

/-- The client state after the settings refresh in the C3 witness. -/
def st1RL : ClientState :=
  { witnessState with
      systemSettings := some settingsW
      settingsLastChecked := 0
      trace := [Event.statusCall] }

/-- The client state after the failed chat attempt in the C3 witness. -/
def st2RL : ClientState :=
  { witnessState with
      systemSettings := some settingsW
      settingsLastChecked := 0
      trace := [Event.statusCall, Event.chatAttempt 0] }

/-- The system settings reported during maintenance. -/
def settingsM : SystemSettings :=
  { cacheRetentionHours := 168, maintenanceMode := true,
    maintenanceMessage := some "Scheduled maintenance until 3pm",
    forceOfflineClients := false }

/-- The client state after the settings refresh in the C4 witness. -/
def st1M : ClientState :=
  { witnessState with
      systemSettings := some settingsM
      settingsLastChecked := 0
      trace := [Event.statusCall] }


/-- The engine state produced by indexing `[docAA]`: one document with
no tokens and an empty vector. -/
def ragAA : RAGState :=
  { documents := [{ id := "a", title := "A", content := "aa", tokens := [], tfidf := [] }],
    idf := [], indexed := true }

/-- A two-token document used by the C6 witness. -/
def docAlpha : CachedDocument :=
  { id := "ab", title := "Alpha Beta", content := "alpha beta", updatedAt := "1" }

/-- The indexed form of a document under a given IDF table (the mapped
function inside `index`). -/
noncomputable def toIndexed (idf : TMap) (d : CachedDocument) : IndexedDocument :=
  { id := d.id, title := d.title, content := d.content,
    tokens := CyberneticLocalRAG.tokenize d.content,
    tfidf := CyberneticLocalRAG.tfidfVector idf (CyberneticLocalRAG.tokenize d.content) }

/-! ## Helper lemmas about the orchestrator's state handling -/

namespace CyberneticClient

theorem emit_cache (e : Event) (st : ClientState) : (emit e st).cache = st.cache := rfl

theorem setStatus_cache (s : ConnectionStatus) (st : ClientState) :
    (setStatus s st).cache = st.cache := by
  unfold setStatus; split <;> rfl

theorem setStatus_trace (s : ConnectionStatus) (st : ClientState) :
    (setStatus s st).trace = st.trace := by
  unfold setStatus; split <;> rfl

theorem checkSystemStatusFetch_cache (env : Env) (st : ClientState) :
    (checkSystemStatusFetch env st).2.cache = st.cache := by
  unfold checkSystemStatusFetch; split <;> rfl

theorem checkSystemStatus_cache (env : Env) (st : ClientState) :
    (checkSystemStatus env st).2.cache = st.cache := by
  unfold checkSystemStatus
  split
  · split
    · rfl
    · exact checkSystemStatusFetch_cache env st
  · exact checkSystemStatusFetch_cache env st

theorem checkSystemStatusFetch_trace (env : Env) (st : ClientState) :
    (checkSystemStatusFetch env st).2.trace = st.trace ++ [Event.statusCall] := by
  unfold checkSystemStatusFetch; split <;> rfl

theorem checkSystemStatus_trace (env : Env) (st : ClientState) :
    (checkSystemStatus env st).2.trace = st.trace ∨
      (checkSystemStatus env st).2.trace = st.trace ++ [Event.statusCall] := by
  unfold checkSystemStatus
  split
  · split
    · exact Or.inl rfl
    · exact Or.inr (checkSystemStatusFetch_trace env st)
  · exact Or.inr (checkSystemStatusFetch_trace env st)

theorem apiWithRetryGo_cache (env : Env) (retry : RetryConfig) (msg : String) :
    ∀ (fuel attempt : Nat) (lastErr : Option String) (st : ClientState),
      (apiWithRetryGo env retry msg fuel attempt lastErr st).2.cache = st.cache := by
  intro fuel
  induction fuel with
  | zero => intro attempt lastErr st; rfl
  | succ n ih =>
    intro attempt lastErr st
    simp only [apiWithRetryGo]
    split
    · rfl
    · split
      · rfl
      · rw [ih]
        split <;> rfl

theorem apiWithRetry_cache (env : Env) (st : ClientState) (msg : String) :
    (apiWithRetry env st msg).2.cache = st.cache :=
  apiWithRetryGo_cache env st.config.retry msg _ 0 Option.none st

/-- The retry loop only records chat attempts and sleeps. -/
theorem apiWithRetryGo_events (env : Env) (retry : RetryConfig) (msg : String) :
    ∀ (fuel attempt : Nat) (lastErr : Option String) (st : ClientState),
      ∃ l, (apiWithRetryGo env retry msg fuel attempt lastErr st).2.trace = st.trace ++ l ∧
        ∀ e ∈ l, (∃ n, e = Event.chatAttempt n) ∨ (∃ m, e = Event.sleep m) := by
  intro fuel
  induction fuel with
  | zero =>
    intro attempt lastErr st
    exact ⟨[], by simp [apiWithRetryGo], by simp⟩
  | succ n ih =>
    intro attempt lastErr st
    simp only [apiWithRetryGo]
    split
    · exact ⟨[Event.chatAttempt attempt], rfl, by simp⟩
    · split
      · exact ⟨[Event.chatAttempt attempt], rfl, by simp⟩
      · rename_i x e' heq hcode
        have key : ∀ (st1 : ClientState) (l0 : List Event), st1.trace = st.trace ++ l0 →
            (∀ e ∈ l0, (∃ n, e = Event.chatAttempt n) ∨ (∃ m, e = Event.sleep m)) →
            ∃ l, (apiWithRetryGo env retry msg n (attempt + 1) (some e') st1).2.trace =
                st.trace ++ l ∧
              ∀ e ∈ l, (∃ n, e = Event.chatAttempt n) ∨ (∃ m, e = Event.sleep m) := by
          intro st1 l0 h0 he0
          obtain ⟨l, hl, he⟩ := ih (attempt + 1) (some e') st1
          refine ⟨l0 ++ l, ?_, ?_⟩
          · rw [hl, h0, List.append_assoc]
          · intro e hme
            rcases List.mem_append.mp hme with h | h
            · exact he0 e h
            · exact he e h
        split
        · exact key (emit (Event.sleep (retryDelay retry attempt))
              (emit (Event.chatAttempt attempt) st))
            [Event.chatAttempt attempt, Event.sleep (retryDelay retry attempt)]
            (by simp [emit]) (by simp)
        · exact key (emit (Event.chatAttempt attempt) st) [Event.chatAttempt attempt]
            (by simp [emit]) (by simp)

theorem apiWithRetry_events (env : Env) (st : ClientState) (msg : String) :
    ∃ l, (apiWithRetry env st msg).2.trace = st.trace ++ l ∧
      ∀ e ∈ l, (∃ n, e = Event.chatAttempt n) ∨ (∃ m, e = Event.sleep m) :=
  apiWithRetryGo_events env st.config.retry msg _ 0 Option.none st

/-- One loop iteration that succeeds. -/
theorem go_step_ok (env : Env) (retry : RetryConfig) (msg : String) (fuel attempt : Nat)
    (lastErr : Option String) (st : ClientState) (r : ChatOk)
    (h : env.chatResult msg attempt = Except.ok r) :
    apiWithRetryGo env retry msg (fuel + 1) attempt lastErr st =
      (Except.ok r, emit (Event.chatAttempt attempt) st) := by
  simp [apiWithRetryGo, h]

/-- One loop iteration that fails retryably with a retry left. -/
theorem go_step_retry (env : Env) (retry : RetryConfig) (msg : String) (fuel attempt : Nat)
    (lastErr : Option String) (st : ClientState) (e : String)
    (h : env.chatResult msg attempt = Except.error e)
    (hA : (normalizeError e).code ≠ ErrorCode.AUTH_ERROR)
    (hR : (normalizeError e).code ≠ ErrorCode.RATE_LIMIT)
    (hlt : attempt < retry.maxRetries) :
    apiWithRetryGo env retry msg (fuel + 1) attempt lastErr st =
      apiWithRetryGo env retry msg fuel (attempt + 1) (some e)
        (emit (Event.sleep (retryDelay retry attempt)) (emit (Event.chatAttempt attempt) st)) := by
  simp [apiWithRetryGo, h, hA, hR, hlt]

/-- One loop iteration that fails with a never-retried class. -/
theorem go_step_noretry (env : Env) (retry : RetryConfig) (msg : String) (fuel attempt : Nat)
    (lastErr : Option String) (st : ClientState) (e : String)
    (h : env.chatResult msg attempt = Except.error e)
    (hcode : (normalizeError e).code = ErrorCode.AUTH_ERROR ∨
      (normalizeError e).code = ErrorCode.RATE_LIMIT) :
    apiWithRetryGo env retry msg (fuel + 1) attempt lastErr st =
      (Except.error e, emit (Event.chatAttempt attempt) st) := by
  rcases hcode with hc | hc <;> simp [apiWithRetryGo, h, hc]

/-- In the `RATE_LIMIT` classification branch, `retryAfter` is the
parsed hint with default 60. -/
theorem normalizeError_rate_limit (e : String)
    (h : (normalizeError e).code = ErrorCode.RATE_LIMIT) :
    (normalizeError e).retryAfter = some ((parseRetryAfter e).getD 60) := by
  by_cases h1 : (jsIncludes e "401" || jsIncludes e "Unauthorized") = true
  · simp [normalizeError, h1] at h
  · by_cases h2 : (jsIncludes e "429" || jsIncludes e "Rate limit") = true
    · simp [normalizeError, h1, h2]
    · by_cases h3 : (jsIncludes e "5" || jsIncludes e "Server") = true
      · simp [normalizeError, h1, h2, h3] at h
      · simp [normalizeError, h1, h2, h3] at h

theorem isCacheValid_lastSync (env : Env) (st : ClientState)
    (h : isCacheValid env st = true) : st.cache.lastSyncAt ≠ none := by
  intro hn
  simp [isCacheValid, hn] at h

theorem emit_rag (e : Event) (st : ClientState) : (emit e st).rag = st.rag := rfl

theorem setStatus_rag (s : ConnectionStatus) (st : ClientState) :
    (setStatus s st).rag = st.rag := by
  unfold setStatus; split <;> rfl

/-- A successful `cache.clear()` leaves an empty, never-synced cache. -/
theorem clear_ok (c : CacheState) (u : Unit) (c' : CacheState)
    (h : CyberneticCache.clear c = (Except.ok u, c')) :
    c'.documentCount = 0 ∧ c'.lastSyncAt = none := by
  unfold CyberneticCache.clear at h
  split at h
  · rw [Prod.mk.injEq] at h
    rw [← h.2]
    exact ⟨rfl, rfl⟩
  · split at h
    · simp at h
    · rw [Prod.mk.injEq] at h
      rw [← h.2]
      exact ⟨rfl, rfl⟩

theorem fallbackAsk_cache (env : Env) (st : ClientState) (message : String) :
    (fallbackAsk env st message).2.cache = st.cache := by
  simp only [fallbackAsk]
  split
  · rw [emit_cache, setStatus_cache]
  · split
    · rw [emit_cache, emit_cache, setStatus_cache]
    · split <;> simp [emit_cache, setStatus_cache, CyberneticLocalRAG.isIndexed]

end CyberneticClient

/-! ## Claims about the orchestrator -/

open CyberneticClient in
/-- Claim C1: for every message string and options, `CyberneticClient.ask`
never raises an exception to its caller — every failure path (invalid
input, transport failure after retries, rate limit, maintenance mode,
cache retrieval failure, local search failure) returns a structured
Answer instead of propagating the error. -/
theorem claim_C1_ask_never_throws (env : Env) (st : ClientState) (message : String)
    (options : AskOptions) :
    (CyberneticClient.ask env st message options).1.isOk = true := by
  simp only [CyberneticClient.ask]
  split
  · rfl
  · split
    · split
      · rfl
      · rfl
    · split
      · rfl
      · split
        · rfl
        · split
          · rfl
          · rfl

open CyberneticClient in
/-- Claim C10: no call to `ask` (including its fallback path) ever writes
to the document cache — the cache component's state (stored documents in
either backend, `documentCount`, `lastSyncAt`) is unchanged by `ask`. -/
theorem claim_C10_ask_cache_frame (env : Env) (st : ClientState) (message : String)
    (options : AskOptions) :
    (CyberneticClient.ask env st message options).2.cache = st.cache := by
  simp only [CyberneticClient.ask]
  split
  · rfl
  · have hc := checkSystemStatus_cache env st
    split
    · split
      · exact hc
      · rw [fallbackAsk_cache]; exact hc
    · have happi := apiWithRetry_cache env (checkSystemStatus env st).2 message
      split
      · rename_i response st2 heq
        rw [heq] at happi
        rw [setStatus_cache]
        exact happi.trans hc
      · rename_i e st2 heq
        rw [heq] at happi
        split
        · exact happi.trans hc
        · split
          · rw [fallbackAsk_cache]
            exact happi.trans hc
          · exact happi.trans hc

open CyberneticClient in
/-- Claim C5: with `maxRetries = 2` and a transport whose chat call fails
twice (retryably) then succeeds, `apiWithRetry` makes exactly 3
sequential transport attempts — with a backoff sleep between consecutive
attempts — and returns the third attempt's result; when a failure is
classified `AUTH_ERROR` or `RATE_LIMIT`, exactly one transport attempt
is made and the original error is rethrown without any retry. -/
theorem claim_C5_retry_counts :
    (∀ (env : Env) (st : ClientState) (msg e0 e1 : String) (r : ChatOk),
      st.config.retry.maxRetries = 2 →
      env.chatResult msg 0 = Except.error e0 →
      env.chatResult msg 1 = Except.error e1 →
      env.chatResult msg 2 = Except.ok r →
      (normalizeError e0).code ≠ ErrorCode.AUTH_ERROR →
      (normalizeError e0).code ≠ ErrorCode.RATE_LIMIT →
      (normalizeError e1).code ≠ ErrorCode.AUTH_ERROR →
      (normalizeError e1).code ≠ ErrorCode.RATE_LIMIT →
      apiWithRetry env st msg = (Except.ok r,
        { st with trace := st.trace ++
            [Event.chatAttempt 0, Event.sleep (retryDelay st.config.retry 0),
             Event.chatAttempt 1, Event.sleep (retryDelay st.config.retry 1),
             Event.chatAttempt 2] })) ∧
    (∀ (env : Env) (st : ClientState) (msg e : String),
      env.chatResult msg 0 = Except.error e →
      ((normalizeError e).code = ErrorCode.AUTH_ERROR ∨
        (normalizeError e).code = ErrorCode.RATE_LIMIT) →
      apiWithRetry env st msg = (Except.error e,
        { st with trace := st.trace ++ [Event.chatAttempt 0] })) := by
  constructor
  · intro env st msg e0 e1 r hmax h0 h1 h2 hA0 hR0 hA1 hR1
    have s1 : apiWithRetry env st msg =
        Cybernetic.CyberneticClient.apiWithRetryGo env st.config.retry msg (2 + 1) 0
          Option.none st := by
      rw [apiWithRetry, hmax]
    rw [s1,
      go_step_retry env _ msg 2 0 _ st e0 h0 hA0 hR0 (by rw [hmax]; norm_num),
      go_step_retry env _ msg 1 1 _ _ e1 h1 hA1 hR1 (by rw [hmax]; norm_num),
      go_step_ok env _ msg 0 2 _ _ r h2]
    simp [emit]
  · intro env st msg e h0 hcode
    rw [apiWithRetry, go_step_noretry env _ msg _ 0 _ st e h0 hcode]
    simp [emit]

open CyberneticClient in
/-- Claim C3: whenever the live call fails with an error classified as
`RATE_LIMIT`, `ask` returns immediately the fixed too-many-requests
Answer with confidence `none`, `offline = false`, and the parsed
retry-after hint (default 60 seconds); the fallback path is never
invoked, regardless of the fallback configuration. -/
theorem claim_C3_rate_limit (env : Env) (st : ClientState) (message : String)
    (options : AskOptions) (settings : SystemSettings) (st1 st2 : ClientState) (e : String)
    (hmsg : message ≠ "")
    (hcheck : checkSystemStatus env st = (settings, st1))
    (hmm : settings.maintenanceMode = false)
    (hfo : settings.forceOfflineClients = false)
    (hapi : apiWithRetry env st1 message = (Except.error e, st2))
    (hrl : (normalizeError e).code = ErrorCode.RATE_LIMIT)
    (hnf : Event.fallback ∉ st.trace) :
    CyberneticClient.ask env st message options =
      (Except.ok { reply := rateLimitReply, confidence := Confidence.none, sources := [],
                   offline := false, retryAfter := some ((parseRetryAfter e).getD 60) },
        { st2 with lastError := some (normalizeError e) }) ∧
    Event.fallback ∉ st2.trace := by
  constructor
  · simp only [CyberneticClient.ask]
    rw [if_neg hmsg, hcheck]
    dsimp only
    rw [hmm, hfo]
    simp only [Bool.or_self, Bool.false_eq_true, if_false]
    rw [hapi]
    dsimp only
    rw [if_pos hrl, normalizeError_rate_limit e hrl]
  · have ht := checkSystemStatus_trace env st
    rw [hcheck] at ht
    have he := apiWithRetry_events env st1 message
    rw [hapi] at he
    obtain ⟨l, hl, hev⟩ := he
    intro hmem
    rw [hl] at hmem
    rcases List.mem_append.mp hmem with hmem1 | hmem2
    · rcases ht with ht | ht
      · rw [ht] at hmem1; exact hnf hmem1
      · rw [ht] at hmem1
        rcases List.mem_append.mp hmem1 with h | h
        · exact hnf h
        · simp at h
    · rcases hev _ hmem2 with ⟨n, h⟩ | ⟨m, h⟩ <;> simp at h

open CyberneticClient in
/-- Claim C4: when the current SystemSettings have `maintenanceMode` or
`forceOfflineClients` set and no valid (non-stale, non-empty) cache
exists, `ask` returns a fixed maintenance Answer with `offline = true`
and confidence `none`, using the server-provided `maintenanceMessage`
when present (else a generic notice), and attempts neither the live
call nor the fallback search.  (The hypothesis relating `lastSyncAt`
and `documentCount` is an invariant of every reachable cache state.) -/
theorem claim_C4_maintenance_empty_cache (env : Env) (st : ClientState) (message : String)
    (options : AskOptions) (settings : SystemSettings) (st1 : ClientState)
    (hmsg : message ≠ "")
    (hcheck : checkSystemStatus env st = (settings, st1))
    (hmode : settings.maintenanceMode = true ∨ settings.forceOfflineClients = true)
    (hinv : st1.cache.lastSyncAt ≠ none → 0 < st1.cache.documentCount)
    (hnovalid : ¬(isCacheValid env st1 = true ∧ st1.cache.documentCount ≠ 0))
    (hnc : ∀ n, Event.chatAttempt n ∉ st.trace)
    (hnf : Event.fallback ∉ st.trace) :
    CyberneticClient.ask env st message options =
      (Except.ok { reply := jsOrStr settings.maintenanceMessage maintenanceFallbackReply,
                   confidence := Confidence.none, sources := [], offline := true,
                   degradedReason := some "Maintenance mode active, no valid cache available" },
        st1) ∧
    (∀ n, Event.chatAttempt n ∉ st1.trace) ∧ Event.fallback ∉ st1.trace := by
  have hvalid : isCacheValid env st1 = false := by
    by_cases hv : isCacheValid env st1 = true
    · exact absurd ⟨hv, Nat.pos_iff_ne_zero.mp (hinv (isCacheValid_lastSync env st1 hv))⟩
        hnovalid
    · simpa using hv
  have hcond : (settings.maintenanceMode || settings.forceOfflineClients) = true := by
    rcases hmode with h | h <;> simp [h]
  refine ⟨?_, ?_⟩
  · simp only [CyberneticClient.ask]
    rw [if_neg hmsg, hcheck]
    dsimp only
    rw [hcond]
    simp only [if_true]
    rw [hvalid]
    simp
  · have ht := checkSystemStatus_trace env st
    rw [hcheck] at ht
    dsimp only at ht
    constructor
    · intro n hmem
      rcases ht with ht | ht
      · rw [ht] at hmem; exact hnc n hmem
      · rw [ht] at hmem
        rcases List.mem_append.mp hmem with h | h
        · exact hnc n h
        · simp at h
    · intro hmem
      rcases ht with ht | ht
      · rw [ht] at hmem; exact hnf hmem
      · rw [ht] at hmem
        rcases List.mem_append.mp hmem with h | h
        · exact hnf h
        · simp at h

open CyberneticClient in
/-- Claim C9: after `clearCache()` completes, the cache reports
`documentCount = 0` and `lastSyncAt = null`, the search engine is no
longer indexed, and a subsequent fallback request yields the fixed
no-cached-information Answer. -/
theorem claim_C9_clearCache (env : Env) (st st' : ClientState) (u : Unit) (message : String)
    (h : clearCache st = (Except.ok u, st')) :
    st'.cache.documentCount = 0 ∧ st'.cache.lastSyncAt = none ∧
    CyberneticLocalRAG.isIndexed st'.rag = false ∧
    (fallbackAsk env st' message).1 =
      { reply := noCacheReply, confidence := Confidence.none, sources := [], offline := true,
        degradedReason := some "No cached documents available" } := by
  rcases hclear : CyberneticCache.clear st.cache with ⟨res, c'⟩
  rw [clearCache, hclear] at h
  cases res with
  | error e => simp at h
  | ok v =>
    rw [Prod.mk.injEq] at h
    have hst' : st' = { st with cache := c', rag := CyberneticLocalRAG.reset st.rag } := h.2.symm
    have hcc := clear_ok st.cache v c' hclear
    subst hst'
    refine ⟨hcc.1, hcc.2, rfl, ?_⟩
    simp only [fallbackAsk, emit_cache, setStatus_cache, CyberneticCache.getStatus]
    rw [if_pos]
    exact hcc.1

open CyberneticClient in
/-- Claim C2: every Answer produced via the fallback path has confidence
in {medium, low, none} and never `high`; on the successful local-search
path the confidence is `low` when the engine's `topScore` is below 0.3
and `medium` when it is at least 0.3. -/
theorem claim_C2_fallback_confidence :
    (∀ (env : Env) (st : ClientState) (message : String),
      (fallbackAsk env st message).1.confidence ≠ Confidence.high) ∧
    (∀ (env : Env) (st : ClientState) (message : String) (docs : List CachedDocument),
      st.cache.documentCount ≠ 0 →
      CyberneticCache.retrieve st.cache = Except.ok docs →
      (fallbackAsk env st message).1.confidence =
        (if (CyberneticLocalRAG.ask (if CyberneticLocalRAG.isIndexed st.rag then st.rag
              else CyberneticLocalRAG.index docs) message).topScore < 0.3
         then Confidence.low else Confidence.medium)) := by
  constructor
  · intro env st message
    simp only [fallbackAsk, emit_cache, setStatus_cache, emit_rag, setStatus_rag]
    split
    · simp
    · split
      · simp
      · split <;> split <;> simp
  · intro env st message docs hcount hret
    simp only [fallbackAsk, emit_cache, setStatus_cache, emit_rag, setStatus_rag,
      CyberneticCache.getStatus]
    rw [if_neg hcount]
    simp only [hret]
    rw [apply_ite ClientState.rag]
    simp only [emit_rag, setStatus_rag]
    by_cases hts : (CyberneticLocalRAG.ask (if CyberneticLocalRAG.isIndexed st.rag then st.rag
        else CyberneticLocalRAG.index docs) message).topScore < 0.3
    · rw [if_pos hts, if_pos hts]
    · rw [if_neg hts, if_neg hts]
      split <;> rw [ite_self]

/-! ## Claim C7: the tokenization pipeline -/

/-- Splitting is unchanged when the two character maps agree on
separator-ness and on non-separator characters. -/
theorem jsSplitAux_map_congr (f1 f2 : Char → Char)
    (h : ∀ c, jsSpaceChar (f1 c) = jsSpaceChar (f2 c) ∧
      (jsSpaceChar (f1 c) = false → f1 c = f2 c)) :
    ∀ (cs cur : List Char) (inSep : Bool),
      jsSplitAux jsSpaceChar (cs.map f1) cur inSep =
        jsSplitAux jsSpaceChar (cs.map f2) cur inSep := by
  intro cs
  induction cs with
  | nil => intro cur inSep; rfl
  | cons c rest ih =>
    intro cur inSep
    simp only [List.map_cons, jsSplitAux]
    by_cases hs : jsSpaceChar (f1 c) = true
    · have hs2 : jsSpaceChar (f2 c) = true := (h c).1 ▸ hs
      rw [if_pos hs, if_pos hs2]
      cases inSep
      · simp only [Bool.false_eq_true, if_false]
        rw [ih]
      · simp only [if_true]
        rw [ih]
    · have hs1 : jsSpaceChar (f1 c) = false := eq_false_of_ne_true hs
      have hs2 : jsSpaceChar (f2 c) = false := (h c).1 ▸ hs1
      have hc : f1 c = f2 c := (h c).2 hs1
      rw [if_neg hs, if_neg (by rw [hs2]; exact Bool.false_ne_true), hc, ih]

/-- Dropping the boundary empty pieces first does not change a filter
that itself rejects the empty string. -/
theorem filter_drop_empty (l : List String) (P : String → Bool)
    (hP : ∀ t, P t = true → t ≠ "") :
    (l.filter fun t => t ≠ "").filter P = l.filter P := by
  rw [List.filter_filter]
  refine List.filter_congr ?_
  intro t _
  by_cases hp : P t = true
  · simp [hp, hP t hp]
  · simp [eq_false_of_ne_true hp]

/-- Counterexample to claim C7 as stated: the code's regex class `\w`
keeps underscores, so `_` is not replaced by whitespace although it is
not alphanumeric. -/
theorem claim_C7_counterexample :
    CyberneticLocalRAG.tokenize "foo_bar" = ["foo_bar"] ∧
    tokenizeClaim "foo_bar" = ["foo", "bar"] ∧
    CyberneticLocalRAG.tokenize "foo_bar" ≠ tokenizeClaim "foo_bar" := by
  refine ⟨by decide, by decide, by decide⟩

/-- Claim C7 (amended): for every input string, `tokenize` lower-cases
the text, replaces every character that is neither alphanumeric nor an
underscore with whitespace, splits on whitespace, and drops every token
of length at most 2 and every token in the fixed stop-word set; the
result depends only on the input string (both sides are pure
functions of `s`). -/
theorem claim_C7_tokenize_amended (s : String) :
    CyberneticLocalRAG.tokenize s = tokenizeAmended s := by
  unfold CyberneticLocalRAG.tokenize tokenizeAmended
  rw [filter_drop_empty]
  · refine congrArg _ ?_
    refine jsSplitAux_map_congr _ _ ?_ (lowerStr s).data [] false
    intro c
    by_cases hw : jsWordChar c = true
    · have hw' : (c.isAlphanum || c = '_') = true := hw
      simp [hw, hw']
    · have hw1 : jsWordChar c = false := eq_false_of_ne_true hw
      have hw' : (c.isAlphanum || c = '_') = false := hw1
      by_cases hsp : jsSpaceChar c = true
      · simp [hw1, hw', hsp]
        decide
      · simp [hw1, hw', eq_false_of_ne_true hsp]
  · intro t ht
    intro he
    subst he
    simp at ht

/-! ## Claim C8: the quota-failure policy of the key-value store -/

theorem lsSetDocs_ok (ls ls' : LSState) (l : List CachedDocument)
    (h : lsSetDocs ls l = Except.ok ls') : ls'.docsItem = some l := by
  simp only [lsSetDocs] at h
  split at h
  · cases h
    rfl
  · cases h

/-- Counterexample to claim C8 as stated: on a quota failure the code
keeps the FIRST 50 documents of the given list (`slice(0, 50)`), not
the most recent 50 — the unique most recent document is dropped even
though 50 older ones are kept. -/
theorem claim_C8_counterexample :
    (lsSetDocs c8cache.ls c8docs).isOk = false ∧
    (CyberneticCache.storeLocalStorage 0 c8docs c8cache).1.isOk = true ∧
    c8doc 50 ∈ c8docs ∧
    (∀ d ∈ c8docs, d = c8doc 50 ∨
      digitsToNat d.updatedAt.data < digitsToNat (c8doc 50).updatedAt.data) ∧
    c8doc 50 ∉ CyberneticCache.retrieveLocalStorage
      (CyberneticCache.storeLocalStorage 0 c8docs c8cache).2 ∧
    (CyberneticCache.retrieveLocalStorage
      (CyberneticCache.storeLocalStorage 0 c8docs c8cache).2).length = 50 := by
  refine ⟨by decide, by decide, by decide, by decide, by decide, by decide⟩

/-- Claim C8 (amended): if the key-value backing store rejects the
write with a quota error, `store` truncates the document list to the
first 50 documents of the given list (not the most recent 50) and
retries the write once; when the retried write is accepted, no
storage-backend error propagates to the caller, and a subsequent
retrieve returns exactly those at most 50 documents.  (A second quota
failure on the retried write would propagate.) -/
theorem claim_C8_store_quota (now : Int) (docs : List CachedDocument) (c : CacheState)
    (hfail : (lsSetDocs c.ls docs).isOk = false)
    (hretry : (lsSetDocs (lsRemoveDocs c.ls) (docs.take 50)).isOk = true) :
    (CyberneticCache.storeLocalStorage now docs c).1 = Except.ok () ∧
    CyberneticCache.retrieveLocalStorage
      (CyberneticCache.storeLocalStorage now docs c).2 = docs.take 50 ∧
    (CyberneticCache.retrieveLocalStorage
      (CyberneticCache.storeLocalStorage now docs c).2).length ≤ 50 := by
  rcases hls : lsSetDocs c.ls docs with e | ls1
  swap
  · rw [hls] at hfail
    simp [Except.isOk, Except.toBool] at hfail
  · rcases hls2 : lsSetDocs (lsRemoveDocs c.ls) (docs.take 50) with e2 | ls2
    · rw [hls2] at hretry
      simp [Except.isOk, Except.toBool] at hretry
    · have hitem := lsSetDocs_ok _ _ _ hls2
      have hstore : CyberneticCache.storeLocalStorage now docs c =
          (Except.ok (), { c with ls := ls2, documentCount := (docs.take 50).length }) := by
        simp only [CyberneticCache.storeLocalStorage, CyberneticCache.storeLocalStorageCatch,
          hls, hls2]
      rw [hstore]
      refine ⟨rfl, ?_, ?_⟩
      · unfold CyberneticCache.retrieveLocalStorage
        rw [hitem]
        rfl
      · unfold CyberneticCache.retrieveLocalStorage
        rw [hitem]
        simp

/-- Witness for the amended claim C8 at the concrete quota scenario
(100-doc-scale corpus truncated to 50 on quota failure). -/
theorem claim_C8_store_quota_witness :
    (CyberneticCache.storeLocalStorage 0 c8docs c8cache).1 = Except.ok () ∧
    CyberneticCache.retrieveLocalStorage
      (CyberneticCache.storeLocalStorage 0 c8docs c8cache).2 = c8docs.take 50 ∧
    (CyberneticCache.retrieveLocalStorage
      (CyberneticCache.storeLocalStorage 0 c8docs c8cache).2).length ≤ 50 :=
  claim_C8_store_quota 0 c8docs c8cache (by decide) (by decide)

/-! ## Witnesses for the orchestrator claims -/

open CyberneticClient in
/-- Witness for claim C5 at a concrete transport: two retryable
failures then success give exactly the three attempts with exponential
backoff sleeps; an auth failure gives exactly one attempt. -/
theorem claim_C5_retry_counts_witness :
    apiWithRetry envRetryTwice witnessState "hi" = (Except.ok chatOkReply,
      { witnessState with trace := [Event.chatAttempt 0, Event.sleep 1000,
          Event.chatAttempt 1, Event.sleep 2000, Event.chatAttempt 2] }) ∧
    apiWithRetry envAuthFail witnessState "hi" = (Except.error "HTTP 401: Unauthorized",
      { witnessState with trace := [Event.chatAttempt 0] }) := by
  constructor
  · have h := claim_C5_retry_counts.1 envRetryTwice witnessState "hi" "fetch failed"
      "fetch failed again" chatOkReply rfl rfl rfl rfl
      (by decide) (by decide) (by decide) (by decide)
    rw [h]
    simp [retryDelay, witnessState, witnessConfig]
  · have h := claim_C5_retry_counts.2 envAuthFail witnessState "hi" "HTTP 401: Unauthorized"
      rfl (Or.inl (by decide))
    rw [h]
    simp [witnessState]

open CyberneticClient in
/-- Witness for claim C3: a 429 response with a parsable hint yields the
fixed rate-limit Answer with `retryAfter = 30`, `offline = false`, and a
trace free of any fallback invocation. -/
theorem claim_C3_rate_limit_witness :
    (CyberneticClient.ask envRateLimited witnessState "hi" {}).1 =
      Except.ok { reply := rateLimitReply, confidence := Confidence.none, sources := [],
                  offline := false, retryAfter := some 30 } ∧
    Event.fallback ∉ (CyberneticClient.ask envRateLimited witnessState "hi" {}).2.trace := by
  have h := claim_C3_rate_limit envRateLimited witnessState "hi" {} settingsW st1RL st2RL
    "HTTP 429: Too Many Requests. Retry after 30 seconds"
    (by decide) (by rfl) rfl rfl (by rfl) (by decide) (by simp [witnessState])
  refine ⟨?_, ?_⟩
  · rw [h.1]
    have h30 : (parseRetryAfter "HTTP 429: Too Many Requests. Retry after 30 seconds").getD 60
        = 30 := by decide
    rw [h30]
  · rw [h.1]
    exact h.2

open CyberneticClient in
/-- Witness for claim C4: with maintenance mode reported by the server
and an empty cache, `ask` returns exactly the server-provided
maintenance message, offline, with no transport attempt and no
fallback. -/
theorem claim_C4_maintenance_witness :
    (CyberneticClient.ask envMaintenance witnessState "hi" {}).1 =
      Except.ok { reply := "Scheduled maintenance until 3pm", confidence := Confidence.none,
                  sources := [], offline := true,
                  degradedReason := some "Maintenance mode active, no valid cache available" } ∧
    (CyberneticClient.ask envMaintenance witnessState "hi" {}).2.trace = [Event.statusCall] := by
  have h := claim_C4_maintenance_empty_cache envMaintenance witnessState "hi" {} settingsM st1M
    (by decide) (by rfl) (Or.inl rfl)
    (fun hn => absurd rfl hn) (by decide)
    (fun n => by simp [witnessState]) (by simp [witnessState])
  refine ⟨?_, ?_⟩
  · rw [h.1]
    rfl
  · rw [h.1]
    rfl

open CyberneticClient in
/-- Witness for claim C9 at a concrete one-document cache. -/
theorem claim_C9_clearCache_witness :
    (clearCache stC9).2.cache.documentCount = 0 ∧
    (clearCache stC9).2.cache.lastSyncAt = none ∧
    CyberneticLocalRAG.isIndexed (clearCache stC9).2.rag = false ∧
    (fallbackAsk envRetryTwice (clearCache stC9).2 "where is my order").1.reply = noCacheReply := by
  have h := claim_C9_clearCache envRetryTwice stC9 (clearCache stC9).2 ()
    "where is my order" rfl
  exact ⟨h.1, h.2.1, h.2.2.1, by rw [h.2.2.2]⟩

/-! ## Claim C6: verbatim queries and the top-ranked source -/

/-- Concrete evaluation: indexing `[docAA]` yields `ragAA`. -/
theorem eval_index_docAA : CyberneticLocalRAG.index [docAA] = ragAA := by
  have htok : CyberneticLocalRAG.tokenize "aa" = [] := by decide
  simp [CyberneticLocalRAG.index, CyberneticLocalRAG.tfidfVector,
    CyberneticLocalRAG.computeTermFrequency, CyberneticLocalRAG.countTokens,
    uniqueList, docAA, htok, ragAA]

/-- Concrete evaluation: querying `ragAA` with an unmatched token gives
`topScore = 0`. -/
theorem eval_ask_zzzz : (CyberneticLocalRAG.ask ragAA "zzzz").topScore = 0 := by
  have htok : CyberneticLocalRAG.tokenize "zzzz" = ["zzzz"] := by decide
  have hlt : decide ((0.1:ℝ) < 0) = false := decide_eq_false (by norm_num)
  simp [CyberneticLocalRAG.ask, ragAA, htok, hlt, CyberneticLocalRAG.tfidfVector,
    CyberneticLocalRAG.computeTermFrequency, CyberneticLocalRAG.countTokens,
    mapSet, mapGet, jsOr, CyberneticLocalRAG.scoreDocs,
    CyberneticLocalRAG.cosineSimilarity, CyberneticLocalRAG.normSq,
    CyberneticLocalRAG.dotProduct, CyberneticLocalRAG.scoreDesc]


namespace CyberneticLocalRAG

theorem mapSet_keys (m : TMap) (k : String) (v : ℝ) :
    (mapSet m k v).map (·.1) =
      if m.any (fun p => p.1 == k) then m.map (·.1) else m.map (·.1) ++ [k] := by
  unfold mapSet
  split
  · rw [List.map_map]
    refine List.map_congr_left ?_
    intro p hp
    by_cases hbk : (p.1 == k) = true
    · simp only [Function.comp_apply, hbk, if_true]
      exact (beq_iff_eq.mp hbk).symm
    · simp only [Function.comp_apply, eq_false_of_ne_true hbk, Bool.false_eq_true, if_false]
  · simp

theorem mapSet_nodup (m : TMap) (k : String) (v : ℝ) (h : (m.map (·.1)).Nodup) :
    ((mapSet m k v).map (·.1)).Nodup := by
  rw [mapSet_keys]
  split
  · exact h
  · rename_i hany
    rw [List.nodup_append]
    refine ⟨h, List.nodup_singleton k, ?_⟩
    intro a ha hk
    rw [List.mem_singleton] at hk
    subst hk
    rcases List.mem_map.mp ha with ⟨p, hp, hpk⟩
    rw [List.any_eq_true] at hany
    exact hany ⟨p, hp, by rw [hpk]; exact beq_self_eq_true a⟩

theorem countTokens_go_nodup (ts : List String) (m : TMap) (h : (m.map (·.1)).Nodup) :
    ((ts.foldl (fun freq t => mapSet freq t ((mapGet freq t).getD 0 + 1)) m).map (·.1)).Nodup := by
  induction ts generalizing m with
  | nil => exact h
  | cons t rest ih => exact ih _ (mapSet_nodup _ _ _ h)

theorem countTokens_nodup (ts : List String) : ((countTokens ts).map (·.1)).Nodup :=
  countTokens_go_nodup ts [] (by simp)

theorem mapSet_values (m : TMap) (k : String) (v : ℝ)
    (hm : ∀ p ∈ m, 1 ≤ p.2) (hv : 1 ≤ v) : ∀ p ∈ mapSet m k v, 1 ≤ p.2 := by
  intro p hp
  unfold mapSet at hp
  split at hp
  · rcases List.mem_map.mp hp with ⟨q, hq, hqp⟩
    by_cases hbk : (q.1 == k) = true
    · rw [hbk] at hqp
      simp only [if_true] at hqp
      rw [← hqp]
      exact hv
    · rw [eq_false_of_ne_true hbk] at hqp
      simp only [Bool.false_eq_true, if_false] at hqp
      rw [← hqp]
      exact hm q hq
  · rcases List.mem_append.mp hp with hq | hq
    · exact hm p hq
    · rw [List.mem_singleton] at hq
      rw [hq]
      exact hv

theorem mapGet_mem_values (m : TMap) (k : String) (v : ℝ) (h : mapGet m k = some v) :
    ∃ p ∈ m, p.2 = v := by
  unfold mapGet at h
  rcases hf : m.find? (fun p => p.1 == k) with _ | q
  · rw [hf] at h; cases h
  · rw [hf] at h
    exact ⟨q, List.mem_of_find?_eq_some hf, by cases h; rfl⟩

theorem countTokens_go_values (ts : List String) (m : TMap) (h : ∀ p ∈ m, 1 ≤ p.2) :
    ∀ p ∈ ts.foldl (fun freq t => mapSet freq t ((mapGet freq t).getD 0 + 1)) m, 1 ≤ p.2 := by
  induction ts generalizing m with
  | nil => exact h
  | cons t rest ih =>
    refine ih _ (mapSet_values _ _ _ h ?_)
    rcases hg : mapGet m t with _ | v
    · simp
    · rcases mapGet_mem_values m t v hg with ⟨p, hp, hpv⟩
      have := h p hp
      simp only [Option.getD_some]
      linarith [h p hp, hpv ▸ this]

theorem countTokens_values (ts : List String) : ∀ p ∈ countTokens ts, 1 ≤ p.2 :=
  countTokens_go_values ts [] (by simp)

theorem mapSet_ne_nil (m : TMap) (k : String) (v : ℝ) : mapSet m k v ≠ [] := by
  unfold mapSet
  split
  · rename_i hany
    intro hcon
    have hm : m = [] := List.map_eq_nil_iff.mp hcon
    subst hm
    simp at hany
  · simp

theorem countTokens_ne_nil (ts : List String) (h : ts ≠ []) : countTokens ts ≠ [] := by
  cases ts with
  | nil => exact absurd rfl h
  | cons t rest =>
    unfold countTokens
    rw [List.foldl_cons]
    have key : ∀ (l : List String) (m : TMap), m ≠ [] →
        l.foldl (fun freq t => mapSet freq t ((mapGet freq t).getD 0 + 1)) m ≠ [] := by
      intro l
      induction l with
      | nil => intro m hm; exact hm
      | cons x xs ih => intro m hm; exact ih _ (mapSet_ne_nil _ _ _)
    exact key rest _ (mapSet_ne_nil _ _ _)

end CyberneticLocalRAG

namespace CyberneticLocalRAG

theorem computeTermFrequency_keys (ts : List String) :
    (computeTermFrequency ts).map (·.1) = (countTokens ts).map (·.1) := by
  simp only [computeTermFrequency]
  split
  · rfl
  · split
    · rw [List.map_map]
      rfl
    · rfl

theorem computeTermFrequency_nodup (ts : List String) :
    ((computeTermFrequency ts).map (·.1)).Nodup := by
  rw [computeTermFrequency_keys]
  exact countTokens_nodup ts

theorem computeTermFrequency_pos (ts : List String) :
    ∀ p ∈ computeTermFrequency ts, 0 < p.2 := by
  intro p hp
  simp only [computeTermFrequency] at hp
  rcases hmax : ((countTokens ts).map (·.2)).max? with _ | M
  · rw [hmax] at hp
    have h1 := countTokens_values ts p hp
    linarith
  · rw [hmax] at hp
    have hM : M ∈ (countTokens ts).map (·.2) := List.max?_mem max_choice hmax
    rcases List.mem_map.mp hM with ⟨q, hq, hqM⟩
    have hM1 : 1 ≤ M := hqM ▸ countTokens_values ts q hq
    have hMpos : 0 < M := by linarith
    dsimp only at hp
    rw [if_pos hMpos] at hp
    rcases List.mem_map.mp hp with ⟨q', hq', hq'p⟩
    rw [← hq'p]
    exact div_pos (by linarith [countTokens_values ts q' hq']) hMpos

theorem computeTermFrequency_ne_nil (ts : List String) (h : ts ≠ []) :
    computeTermFrequency ts ≠ [] := by
  simp only [computeTermFrequency]
  split
  · exact countTokens_ne_nil ts h
  · split
    · intro hcon
      exact countTokens_ne_nil ts h (List.map_eq_nil_iff.mp hcon)
    · exact countTokens_ne_nil ts h

theorem jsOr_ne_zero (x : Option ℝ) (d : ℝ) (hd : d ≠ 0) : jsOr x d ≠ 0 := by
  rcases x with _ | v
  · exact hd
  · simp only [jsOr]
    by_cases hv : v = 0
    · rw [if_pos hv]; exact hd
    · rw [if_neg hv]; exact hv

theorem tfidfVector_keys (idf : TMap) (ts : List String) :
    (tfidfVector idf ts).map (·.1) = (computeTermFrequency ts).map (·.1) := by
  unfold tfidfVector
  rw [List.map_map]
  rfl

theorem tfidfVector_nodup (idf : TMap) (ts : List String) :
    ((tfidfVector idf ts).map (·.1)).Nodup := by
  rw [tfidfVector_keys]
  exact computeTermFrequency_nodup ts

theorem tfidfVector_ne_nil (idf : TMap) (ts : List String) (h : ts ≠ []) :
    tfidfVector idf ts ≠ [] := by
  unfold tfidfVector
  intro hcon
  exact computeTermFrequency_ne_nil ts h (List.map_eq_nil_iff.mp hcon)

theorem tfidfVector_values_ne_zero (idf : TMap) (ts : List String) :
    ∀ p ∈ tfidfVector idf ts, p.2 ≠ 0 := by
  intro p hp
  unfold tfidfVector at hp
  rcases List.mem_map.mp hp with ⟨q, hq, hqp⟩
  rw [← hqp]
  exact mul_ne_zero (ne_of_gt (computeTermFrequency_pos ts q hq))
    (jsOr_ne_zero _ _ one_ne_zero)

theorem normSq_nonneg (v : TMap) : 0 ≤ normSq v := by
  unfold normSq
  refine List.sum_nonneg ?_
  intro x hx
  rcases List.mem_map.mp hx with ⟨p, _, hpx⟩
  rw [← hpx]
  exact mul_self_nonneg _

theorem normSq_pos (v : TMap) (hne : v ≠ []) (hv : ∀ p ∈ v, p.2 ≠ 0) : 0 < normSq v := by
  cases v with
  | nil => exact absurd rfl hne
  | cons p rest =>
    unfold normSq
    rw [List.map_cons, List.sum_cons]
    have h1 : 0 < p.2 * p.2 := mul_self_pos.mpr (hv p (List.mem_cons_self p rest))
    have h2 : 0 ≤ (rest.map fun q => q.2 * q.2).sum := by
      refine List.sum_nonneg ?_
      intro x hx
      rcases List.mem_map.mp hx with ⟨q, _, hqx⟩
      rw [← hqx]
      exact mul_self_nonneg _
    linarith

theorem mapGet_of_mem (v : TMap) (k : String) (a : ℝ)
    (hnd : (v.map (·.1)).Nodup) (hp : (k, a) ∈ v) : mapGet v k = some a := by
  induction v with
  | nil => cases hp
  | cons q rest ih =>
    rw [List.map_cons, List.nodup_cons] at hnd
    rcases List.mem_cons.mp hp with heq | hmem
    · rw [← heq]
      unfold mapGet
      rw [List.find?_cons_of_pos _ (by simp)]
      rfl
    · have hk : q.1 ≠ k := by
        intro hqk
        exact hnd.1 (List.mem_map.mpr ⟨(k, a), hmem, by rw [hqk]⟩)
      unfold mapGet
      rw [List.find?_cons_of_neg _ (by simpa using hk)]
      exact ih hnd.2 hmem

/-- Shorthand for `vec.get(k) || 0`. -/
noncomputable def tgetD (v : TMap) (k : String) : ℝ := (mapGet v k).getD 0

theorem tgetD_eq_zero_of_not_mem (v : TMap) (k : String)
    (h : k ∉ v.map (·.1)) : tgetD v k = 0 := by
  unfold tgetD mapGet
  rcases hf : v.find? (fun p => p.1 == k) with _ | q
  · rw [hf]
    rfl
  · exfalso
    have hq := List.mem_of_find?_eq_some hf
    have hpk : (q.1 == k) = true := (List.find?_eq_some.mp hf).1
    exact h (List.mem_map.mpr ⟨q, hq, beq_iff_eq.mp hpk⟩)

theorem entry_sum_eq_finset (v : TMap) (f : String → ℝ → ℝ)
    (hnd : (v.map (·.1)).Nodup) :
    (v.map fun p => f p.1 p.2).sum = ∑ k ∈ (v.map (·.1)).toFinset, f k (tgetD v k) := by
  induction v with
  | nil => simp
  | cons q rest ih =>
    rw [List.map_cons, List.nodup_cons] at hnd
    rw [List.map_cons, List.sum_cons, List.map_cons, List.toFinset_cons,
      Finset.sum_insert (by simpa using hnd.1)]
    have hq : tgetD (q :: rest) q.1 = q.2 := by
      unfold tgetD
      rw [mapGet_of_mem _ _ _ (by rw [List.map_cons]; exact List.nodup_cons.mpr hnd)
        (List.mem_cons_self _ _)]
      rfl
    rw [hq]
    congr 1
    rw [ih hnd.2]
    refine Finset.sum_congr rfl ?_
    intro k hk
    have hkq : q.1 ≠ k := by
      intro hqk
      exact hnd.1 (by rw [hqk]; exact List.mem_toFinset.mp hk)
    congr 1
    unfold tgetD mapGet
    rw [List.find?_cons_of_neg _ (by simpa using hkq)]

end CyberneticLocalRAG

namespace CyberneticLocalRAG

theorem dotProduct_as_finset (v1 v2 : TMap) (h1 : (v1.map (·.1)).Nodup) :
    dotProduct v1 v2 = ∑ k ∈ (v1.map (·.1)).toFinset, tgetD v1 k * tgetD v2 k := by
  unfold dotProduct
  exact entry_sum_eq_finset v1 (fun k a => a * tgetD v2 k) h1

theorem normSq_as_finset (v : TMap) (h : (v.map (·.1)).Nodup) :
    normSq v = ∑ k ∈ (v.map (·.1)).toFinset, tgetD v k * tgetD v k := by
  unfold normSq
  exact entry_sum_eq_finset v (fun k a => a * a) h

theorem dotProduct_le (v1 v2 : TMap)
    (h1 : (v1.map (·.1)).Nodup) (h2 : (v2.map (·.1)).Nodup) :
    dotProduct v1 v2 ≤ Real.sqrt (normSq v1) * Real.sqrt (normSq v2) := by
  rw [dotProduct_as_finset v1 v2 h1, normSq_as_finset v1 h1, normSq_as_finset v2 h2]
  have hA0 : (0:ℝ) ≤ ∑ k ∈ (v1.map (·.1)).toFinset, tgetD v1 k * tgetD v1 k :=
    Finset.sum_nonneg fun k _ => mul_self_nonneg _
  have cs : (∑ k ∈ (v1.map (·.1)).toFinset, tgetD v1 k * tgetD v2 k) ≤
      Real.sqrt (∑ k ∈ (v1.map (·.1)).toFinset, tgetD v1 k * tgetD v1 k) *
      Real.sqrt (∑ k ∈ (v1.map (·.1)).toFinset, tgetD v2 k * tgetD v2 k) := by
    have hsq := Finset.sum_mul_sq_le_sq_mul_sq ((v1.map (·.1)).toFinset)
      (fun k => tgetD v1 k) (fun k => tgetD v2 k)
    calc (∑ k ∈ (v1.map (·.1)).toFinset, tgetD v1 k * tgetD v2 k)
        ≤ |∑ k ∈ (v1.map (·.1)).toFinset, tgetD v1 k * tgetD v2 k| := le_abs_self _
      _ = Real.sqrt ((∑ k ∈ (v1.map (·.1)).toFinset, tgetD v1 k * tgetD v2 k) ^ 2) :=
          (Real.sqrt_sq_eq_abs _).symm
      _ ≤ Real.sqrt ((∑ k ∈ (v1.map (·.1)).toFinset, tgetD v1 k ^ 2) *
            (∑ k ∈ (v1.map (·.1)).toFinset, tgetD v2 k ^ 2)) := Real.sqrt_le_sqrt hsq
      _ = Real.sqrt (∑ k ∈ (v1.map (·.1)).toFinset, tgetD v1 k * tgetD v1 k) *
            Real.sqrt (∑ k ∈ (v1.map (·.1)).toFinset, tgetD v2 k * tgetD v2 k) := by
          rw [Real.sqrt_mul (Finset.sum_nonneg fun k _ => sq_nonneg _)]
          simp only [pow_two]
  refine cs.trans ?_
  refine mul_le_mul_of_nonneg_left (Real.sqrt_le_sqrt ?_) (Real.sqrt_nonneg _)
  have hzero : ∀ k ∈ (v1.map (·.1)).toFinset, k ∉ (v2.map (·.1)).toFinset →
      tgetD v2 k * tgetD v2 k = 0 := by
    intro k _ hk
    rw [tgetD_eq_zero_of_not_mem v2 k (fun hm => hk (List.mem_toFinset.mpr hm))]
    ring
  calc (∑ k ∈ (v1.map (·.1)).toFinset, tgetD v2 k * tgetD v2 k)
      = ∑ k ∈ (v1.map (·.1)).toFinset ∩ (v2.map (·.1)).toFinset, tgetD v2 k * tgetD v2 k := by
        refine (Finset.sum_subset Finset.inter_subset_left ?_).symm
        intro k hk1 hk2
        refine hzero k hk1 ?_
        intro hk2'
        exact hk2 (Finset.mem_inter.mpr ⟨hk1, hk2'⟩)
    _ ≤ ∑ k ∈ (v2.map (·.1)).toFinset, tgetD v2 k * tgetD v2 k := by
        refine Finset.sum_le_sum_of_subset_of_nonneg Finset.inter_subset_right ?_
        intro k _ _
        exact mul_self_nonneg _

theorem cosineSimilarity_le_one (v1 v2 : TMap)
    (h1 : (v1.map (·.1)).Nodup) (h2 : (v2.map (·.1)).Nodup) :
    cosineSimilarity v1 v2 ≤ 1 := by
  unfold cosineSimilarity
  split
  · norm_num
  · rename_i hcond
    push_neg at hcond
    have hn1 : 0 < normSq v1 := lt_of_le_of_ne (normSq_nonneg v1) (Ne.symm hcond.1)
    have hn2 : 0 < normSq v2 := lt_of_le_of_ne (normSq_nonneg v2) (Ne.symm hcond.2)
    rw [div_le_one (mul_pos (Real.sqrt_pos.mpr hn1) (Real.sqrt_pos.mpr hn2))]
    exact dotProduct_le v1 v2 h1 h2

theorem dotProduct_self (v : TMap) (h : (v.map (·.1)).Nodup) :
    dotProduct v v = normSq v := by
  unfold dotProduct normSq
  refine congrArg List.sum ?_
  refine List.map_congr_left ?_
  intro p hp
  have := mapGet_of_mem v p.1 p.2 h (by rw [Prod.mk.eta]; exact hp)
  rw [this]
  rfl

theorem cosineSimilarity_self (v : TMap) (h : (v.map (·.1)).Nodup)
    (hpos : 0 < normSq v) : cosineSimilarity v v = 1 := by
  unfold cosineSimilarity
  rw [if_neg (by push_neg; exact ⟨ne_of_gt hpos, ne_of_gt hpos⟩)]
  rw [dotProduct_self v h, Real.mul_self_sqrt (le_of_lt hpos)]
  exact div_self (ne_of_gt hpos)

theorem mergeSort_head_max (l : List (IndexedDocument × ℝ)) (hne : l ≠ []) :
    ∃ h t, l.mergeSort scoreDesc = h :: t ∧ h ∈ l ∧ ∀ p ∈ l, p.2 ≤ h.2 := by
  have hperm := List.mergeSort_perm l scoreDesc
  have htrans : ∀ a b c : IndexedDocument × ℝ,
      scoreDesc a b = true → scoreDesc b c = true → scoreDesc a c = true := by
    intro a b c hab hbc
    simp only [scoreDesc, decide_eq_true_eq] at *
    exact le_trans hbc hab
  have htotal : ∀ a b : IndexedDocument × ℝ, (scoreDesc a b || scoreDesc b a) = true := by
    intro a b
    simp only [scoreDesc, Bool.or_eq_true, decide_eq_true_eq]
    exact (le_total b.2 a.2)
  have hsorted := List.sorted_mergeSort htrans htotal l
  rcases hms : l.mergeSort scoreDesc with _ | ⟨h, t⟩
  · exfalso
    have := hperm.length_eq
    rw [hms] at this
    simp at this
    exact hne (List.length_eq_zero.mp this.symm)
  · refine ⟨h, t, rfl, ?_, ?_⟩
    · exact hperm.mem_iff.mp (by rw [hms]; exact List.mem_cons_self h t)
    · intro p hp
      have hp' : p ∈ l.mergeSort scoreDesc := hperm.mem_iff.mpr hp
      rw [hms] at hp'
      rcases List.mem_cons.mp hp' with heq | hmem
      · rw [heq]
      · rw [hms] at hsorted
        have := (List.pairwise_cons.mp hsorted).1 p hmem
        simp only [scoreDesc, decide_eq_true_eq] at this
        exact this

end CyberneticLocalRAG


open CyberneticLocalRAG in
/-- Claim C6 (amended): after `index(docs)` on a non-empty corpus, asking
with a query that is verbatim the content of a member document whose
content tokenizes non-trivially returns a non-empty source list whose
top-ranked source carries the maximal similarity score 1; the queried
document itself always attains this maximal score (cosine similarity 1
with the query), and every corpus score is at most 1 — though on ties an
earlier identically-scoring document may be ranked first. -/
theorem claim_C6_verbatim_query (docs : List CachedDocument) (d : CachedDocument)
    (hd : d ∈ docs) (htok : tokenize d.content ≠ []) :
    (ask (index docs) d.content).topScore = 1 ∧
    ((ask (index docs) d.content).sources.head?.map (·.score)) = some 1 ∧
    (∀ p ∈ scoreDocs (index docs) (tfidfVector (index docs).idf (tokenize d.content)),
      p.2 ≤ 1) ∧
    (∃ p ∈ scoreDocs (index docs) (tfidfVector (index docs).idf (tokenize d.content)),
      p.1.content = d.content ∧ p.2 = 1) := by
  have hqnodup := tfidfVector_nodup (index docs).idf (tokenize d.content)
  have hqne := tfidfVector_ne_nil (index docs).idf (tokenize d.content) htok
  have hqpos : 0 < normSq (tfidfVector (index docs).idf (tokenize d.content)) :=
    normSq_pos _ hqne (tfidfVector_values_ne_zero _ _)
  have hone : cosineSimilarity (tfidfVector (index docs).idf (tokenize d.content))
      (tfidfVector (index docs).idf (tokenize d.content)) = 1 :=
    cosineSimilarity_self _ hqnodup hqpos
  have hmem : toIndexed (index docs).idf d ∈ (index docs).documents := by
    simp only [index]
    exact List.mem_map.mpr ⟨(d, tokenize d.content),
      List.mem_map.mpr ⟨d, hd, rfl⟩, rfl⟩
  have hform : ∀ dd ∈ (index docs).documents,
      ∃ ts, dd.tfidf = tfidfVector (index docs).idf ts := by
    intro dd hdd
    simp only [index] at hdd
    rcases List.mem_map.mp hdd with ⟨dt, _, hddf⟩
    exact ⟨dt.2, by rw [← hddf]; rfl⟩
  have hbound : ∀ p ∈ scoreDocs (index docs)
      (tfidfVector (index docs).idf (tokenize d.content)), p.2 ≤ 1 := by
    intro p hp
    unfold scoreDocs at hp
    rcases List.mem_map.mp hp with ⟨dd, hdd, hdp⟩
    rcases hform dd hdd with ⟨ts, hts⟩
    rw [← hdp]
    exact cosineSimilarity_le_one _ _ hqnodup (hts ▸ tfidfVector_nodup (index docs).idf ts)
  have hentry : (toIndexed (index docs).idf d,
      cosineSimilarity (tfidfVector (index docs).idf (tokenize d.content))
        (tfidfVector (index docs).idf (tokenize d.content)))
      ∈ scoreDocs (index docs) (tfidfVector (index docs).idf (tokenize d.content)) := by
    unfold scoreDocs
    exact List.mem_map.mpr ⟨_, hmem, rfl⟩
  have hne : scoreDocs (index docs) (tfidfVector (index docs).idf (tokenize d.content)) ≠ [] := by
    intro hcon
    unfold scoreDocs at hcon
    rw [List.map_eq_nil_iff] at hcon
    simp only [index] at hcon
    rw [List.map_eq_nil_iff, List.map_eq_nil_iff] at hcon
    rw [hcon] at hd
    cases hd
  obtain ⟨h, t, hms, hmemh, hmax⟩ := mergeSort_head_max _ hne
  have hh2 : h.2 = 1 := by
    refine le_antisymm (hbound h hmemh) ?_
    have := hmax _ hentry
    rw [hone] at this
    exact this
  have hguard : ¬((index docs).indexed = false ∨ (index docs).documents.length = 0) := by
    push_neg
    constructor
    · simp [index]
    · simp only [index, List.length_map]
      intro hcon
      rw [List.length_eq_zero.mp hcon] at hd
      cases hd
  have hfilterh : (decide ((0.1:ℝ) < h.2)) = true := by
    rw [hh2]
    exact decide_eq_true (by norm_num)
  simp only [ask]
  rw [if_neg hguard, hms, show (3:Nat) = 2 + 1 from rfl, List.take_succ_cons]
  simp only [List.filter_cons, hfilterh, if_true]
  refine ⟨hh2, ?_, hbound, ?_⟩
  · simp [hh2]
  · exact ⟨_, hentry, rfl, hone⟩



/-- Concrete evaluation: querying `ragAA` with its own (trivially
tokenizing) content gives no sources and `topScore = 0`. -/
theorem eval_ask_aa :
    (CyberneticLocalRAG.ask ragAA "aa").sources = [] ∧
    (CyberneticLocalRAG.ask ragAA "aa").topScore = 0 := by
  have htok : CyberneticLocalRAG.tokenize "aa" = [] := by decide
  have hlt : decide ((0.1:ℝ) < 0) = false := decide_eq_false (by norm_num)
  constructor <;>
    simp [CyberneticLocalRAG.ask, ragAA, htok, hlt, CyberneticLocalRAG.tfidfVector,
      CyberneticLocalRAG.computeTermFrequency, CyberneticLocalRAG.countTokens,
      mapSet, mapGet, jsOr, CyberneticLocalRAG.scoreDocs,
      CyberneticLocalRAG.cosineSimilarity, CyberneticLocalRAG.normSq,
      CyberneticLocalRAG.dotProduct, CyberneticLocalRAG.scoreDesc]

/-- Counterexample to claim C6 as stated: for the non-empty corpus
`[docAA]` and the query drawn verbatim from that document's content, the
engine returns NO sources at all — the content tokenizes to nothing (all
tokens have length at most 2), so every score is 0 and falls below the
0.1 threshold, and the document is not the top-ranked source. -/
theorem claim_C6_counterexample :
    docAA ∈ [docAA] ∧ docAA.content = "aa" ∧
    (CyberneticLocalRAG.ask (CyberneticLocalRAG.index [docAA]) docAA.content).sources = [] ∧
    (CyberneticLocalRAG.ask (CyberneticLocalRAG.index [docAA]) docAA.content).topScore = 0 := by
  refine ⟨by decide, rfl, ?_, ?_⟩ <;>
    rw [show docAA.content = "aa" from rfl, eval_index_docAA]
  · exact eval_ask_aa.1
  · exact eval_ask_aa.2

/-- Witness for the amended claim C6 at a concrete two-token document
queried with its verbatim content. -/
theorem claim_C6_verbatim_query_witness :
    (CyberneticLocalRAG.ask (CyberneticLocalRAG.index [docAlpha]) docAlpha.content).topScore = 1 ∧
    ((CyberneticLocalRAG.ask (CyberneticLocalRAG.index [docAlpha])
      docAlpha.content).sources.head?.map (·.score)) = some 1 := by
  have h := claim_C6_verbatim_query [docAlpha] docAlpha (by decide) (by decide)
  exact ⟨h.1, h.2.1⟩

open CyberneticClient in
/-- Witness for claim C2: a fallback over one cached document whose
index matches nothing gives `topScore = 0 < 0.3`, hence confidence
`low`. -/
theorem claim_C2_fallback_confidence_witness :
    (CyberneticClient.fallbackAsk envRetryTwice stC2 "zzzz").1.confidence = Confidence.low := by
  have h := claim_C2_fallback_confidence.2 envRetryTwice stC2 "zzzz" [docAA] (by decide) (by rfl)
  rw [h]
  rw [if_neg (show ¬(CyberneticLocalRAG.isIndexed stC2.rag = true) by decide)]
  rw [eval_index_docAA, eval_ask_zzzz]
  rw [if_pos (by norm_num)]

end Cybernetic
